import Mathlib

/-!
Shallow embedding of the dataset-splitting routines of
`src/mhciipresentation/splits.py` and of the Lightning module of
`src/mhciipresentation/models.py` from the AEGIS repository, together with
theorems settling the specification claims about them.

Modelling conventions:
* pandas `DataFrame`s are lists of records; Python `set`s are `Finset`s;
  machine floats that only ever hold small fractions (`eval_frac`,
  `val_frac`, the literal `0.1`, `0.8`, `0.5`) are rational constants
  represented by numerator/denominator pairs of naturals.
* library randomness with an explicit `random_state` (sklearn's
  `train_test_split`, pandas `DataFrame.sample`) is modelled by a concrete
  deterministic permutation keyed by the seed (`detShuffle`); each call
  site receives the interpreter's ambient RNG state `amb` and a
  `randomState : Option Nat`, and uses the seed `randomState.getD amb`,
  mirroring Python where `random_state=None` falls back to global
  randomness and `random_state=42` pins the stream.
* unseeded randomness (`random.sample`, unseeded `DataFrame.sample`) is
  modelled by oracle function parameters; theorems either hold for every
  oracle or carry explicit hypotheses stating that the oracle output is a
  possible sample (members drawn from the pool, requested size).
* fallible Python code (attribute access on a missing column, indexing a
  `value_counts` result at an absent key) is modelled in `Except PyErr`,
  where `PyErr` has only the generic error shapes Python raises here.
-/

set_option linter.unusedVariables false

/-- Generic Python exception shapes raised by this code base: it defines no
custom exception class, so the only failures are attribute errors (missing
dataframe column accessed as an attribute) and key/value errors (missing
key in an index, infeasible sample). -/
inductive PyErr where
  | attributeError : PyErr
  | keyError : PyErr
  | valueError : PyErr
deriving DecidableEq, Repr

/-- Linear congruential step; stands in for the library RNG keyed by a seed. -/
def lcg (n : Nat) : Nat := (1103515245 * n + 12345) % 2147483648

/-- Deterministic permutation of a list keyed by a seed.  It models the
seeded Fisher-Yates shuffle inside sklearn/pandas: the theorems below use
only that it is a permutation (membership-preserving) determined entirely
by the seed and the input. -/
def detShuffle (seed : Nat) (xs : List α) : List α :=
  xs.rotate (lcg seed % (xs.length + 1))

/-- Ceiling of `num/den * n`; sklearn's `_validate_shuffle_split` computes
the test-set size of `train_test_split` as `ceil(test_size * n_samples)`. -/
def ceilFrac (num den n : Nat) : Nat := (num * n + (den - 1)) / den

/-- Round-to-nearest of `num/den * n` (ties up); pandas `sample(frac=f)`
draws `round(f * n)` rows.  (Python rounds ties to even; no claim below
depends on the tie behaviour.) -/
def roundFrac (num den n : Nat) : Nat := (2 * num * n + den) / (2 * den)

/-- Embeds `sklearn.model_selection.train_test_split(xs, ..., test_size=num/den,
random_state)` restricted to the first array: shuffles with the seed
(`randomState` if given, otherwise the ambient RNG state) and returns
`(train, test)` with `|test| = ceil(num/den * |xs|)`. -/
def train_test_split (randomState : Option Nat) (amb : Nat) (num den : Nat)
    (xs : List α) : List α × List α :=
  let seed := randomState.getD amb
  let sh := detShuffle seed xs
  let nTest := ceilFrac num den xs.length
  (sh.drop nTest, sh.take nTest)

/-- Embeds `df.sample(frac=num/den, random_state)` together with
`df.drop(sampled.index)`: returns `(sampled rows, remaining rows)`,
a partition of the input rows. -/
def detSample (randomState : Option Nat) (amb : Nat) (num den : Nat)
    (xs : List α) : List α × List α :=
  let seed := randomState.getD amb
  let sh := detShuffle seed xs
  let k := roundFrac num den xs.length
  (sh.take k, sh.drop k)

/-- Embeds `remove_overlapping_peptides(peptides_1, peptides_2)`
(splits.py lines 32-50): `peptides_1.difference(peptides_2)` paired with
`peptides_2` unchanged. -/
def remove_overlapping_peptides [DecidableEq α] (peptides_1 peptides_2 : Finset α) :
    Finset α × Finset α :=
  (peptides_1 \ peptides_2, peptides_2)

/-- Embeds `validate_split(X_train, X_val, X_test=None)` (splits.py lines
53-78): computes the pairwise peptide overlaps, prints them, and returns
`None`.  The returned `Except` value records the printed lines; the
function body has no failing operation, so no `.error` is ever produced. -/
def validate_split (X_train X_val : List String)
    (X_test : Option (List String)) : Except PyErr (List String) :=
  let l1 := "Overlap between train and val " ++
    toString ((X_train.toFinset ∩ X_val.toFinset).card)
  match X_test with
  | none => Except.ok [l1]
  | some xt =>
    Except.ok
      [l1,
       "Overlap between train and test " ++
         toString ((X_train.toFinset ∩ xt.toFinset).card),
       "Overlap between val and test " ++
         toString ((X_val.toFinset ∩ xt.toFinset).card)]

/-- A pandas dataframe restricted to what `label_dist_summary` touches:
named columns of integer labels. -/
structure PyDataFrame where
  cols : List (String × List Nat)
deriving DecidableEq, Repr

/-- Column lookup `data[target_col]`. -/
def PyDataFrame.getCol (df : PyDataFrame) (name : String) : Option (List Nat) :=
  (df.cols.find? (fun c => c.1 == name)).map (fun c => c.2)

/-- Embeds `label_dist_summary(data, target_col, dataset_name)` (splits.py
lines 99-106).  `data[target_col]` raises `KeyError` when the column is
absent; `value_cts[0]` / `value_cts[1]` raise `KeyError` when the label is
absent from the column; otherwise the printed pair
(negative count, positive count) is returned. -/
def label_dist_summary (df : PyDataFrame) (target_col : String) :
    Except PyErr (Nat × Nat) :=
  match df.getCol target_col with
  | none => Except.error PyErr.keyError
  | some col =>
    if col.count 0 = 0 then Except.error PyErr.keyError
    else if col.count 1 = 0 then Except.error PyErr.keyError
    else Except.ok (col.count 0, col.count 1)

/-- A row of the human peptide table: the two columns `random_splitting`
reads (`peptide`, `target_value`). -/
structure HRow where
  peptide : String
  target_value : Nat
deriving DecidableEq, Repr

/-- Result of a splitting call: train/val rows and optional test rows
(`random_splitting` passes `X_test_data=None` when the test split is empty). -/
structure SplitResult where
  train : List HRow
  val : List HRow
  test : Option (List HRow)
deriving DecidableEq, Repr

/-- Peptide-identity set of a list of rows. -/
def peptideSet (rows : List HRow) : Finset String :=
  (rows.map (fun r => r.peptide)).toFinset

/-- Peptide-identity set of the (optional) test split. -/
def testPeptideSet (r : SplitResult) : Finset String :=
  match r.test with
  | none => ∅
  | some t => peptideSet t

/-- splits.py lines 126-131: `train_test_split(data.peptide.values,
data.target_value.values, test_size=eval_frac, random_state=42)`,
restricted to the peptide arrays `(X_train, X_eval)`; the label arrays
`y_train, y_eval` are never used afterwards. -/
def rs_tts (amb : Nat) (data : List HRow) (evalNum evalDen : Nat) :
    List String × List String :=
  train_test_split (some 42) amb evalNum evalDen
    (data.map (fun r => r.peptide))

/-- splits.py line 134, first component: after
`X_train, X_eval = remove_overlapping_peptides(set(X_train), set(X_eval))`,
the training peptide set. -/
def rs_train_set (amb : Nat) (data : List HRow) (evalNum evalDen : Nat) :
    Finset String :=
  (remove_overlapping_peptides (rs_tts amb data evalNum evalDen).1.toFinset
    (rs_tts amb data evalNum evalDen).2.toFinset).1

/-- splits.py line 134, second component: the evaluation peptide set. -/
def rs_eval_set (amb : Nat) (data : List HRow) (evalNum evalDen : Nat) :
    Finset String :=
  (remove_overlapping_peptides (rs_tts amb data evalNum evalDen).1.toFinset
    (rs_tts amb data evalNum evalDen).2.toFinset).2

/-- splits.py line 135: `data[data["peptide"].isin(X_train)]`. -/
def rs_X_train_data (amb : Nat) (data : List HRow) (evalNum evalDen : Nat) :
    List HRow :=
  data.filter (fun r => decide (r.peptide ∈ rs_train_set amb data evalNum evalDen))

/-- splits.py line 136: `data[data["peptide"].isin(X_eval)]`. -/
def rs_X_eval_data (amb : Nat) (data : List HRow) (evalNum evalDen : Nat) :
    List HRow :=
  data.filter (fun r => decide (r.peptide ∈ rs_eval_set amb data evalNum evalDen))

/-- splits.py lines 139-140: `X_val = X_eval_data.sample(frac=val_frac,
random_state=42)` and `X_test = X_eval_data.drop(X_val.index)`, as the
pair (sampled rows, remaining rows). -/
def rs_sample (amb : Nat) (data : List HRow) (evalNum evalDen valNum valDen : Nat) :
    List HRow × List HRow :=
  detSample (some 42) amb valNum valDen (rs_X_eval_data amb data evalNum evalDen)

/-- The peptide column of the sampled validation rows. -/
def rs_X_val_peps (amb : Nat) (data : List HRow) (evalNum evalDen valNum valDen : Nat) :
    List String :=
  (rs_sample amb data evalNum evalDen valNum valDen).1.map (fun r => r.peptide)

/-- The peptide column of the remaining test rows. -/
def rs_X_test_peps (amb : Nat) (data : List HRow) (evalNum evalDen valNum valDen : Nat) :
    List String :=
  (rs_sample amb data evalNum evalDen valNum valDen).2.map (fun r => r.peptide)

/-- Embeds `random_splitting(data, out_dir, eval_frac, val_frac)`
(splits.py lines 109-169), with `eval_frac = evalNum/evalDen` and
`val_frac = valNum/valDen`; the CSV writing and printing side effects are
dropped, the computed partitions are returned.  Both random calls pass
`random_state=42`, embedded as `some 42`; `amb` is the ambient RNG state
the calls would use were no seed given.  Note the source's line 144 binds
`X_test, X_val = remove_overlapping_peptides(set(X_val), set(X_test))`,
so the new test set is `val − test` and the new val set is the old test
set; line 149 then selects `X_val_data` by membership in the reassigned
`X_val`, in both branches of the `if` of line 143. -/
def random_splitting (amb : Nat) (data : List HRow)
    (evalNum evalDen valNum valDen : Nat) : SplitResult :=
  if (rs_X_test_peps amb data evalNum evalDen valNum valDen).length ≠ 0 then
    let rov2 := remove_overlapping_peptides
      (rs_X_val_peps amb data evalNum evalDen valNum valDen).toFinset
      (rs_X_test_peps amb data evalNum evalDen valNum valDen).toFinset
    { train := rs_X_train_data amb data evalNum evalDen,
      val := data.filter (fun r => decide (r.peptide ∈ rov2.2)),
      test := some (data.filter (fun r => decide (r.peptide ∈ rov2.1))) }
  else
    { train := rs_X_train_data amb data evalNum evalDen,
      val := data.filter (fun r => decide (r.peptide ∈
        (rs_X_val_peps amb data evalNum evalDen valNum valDen).toFinset)),
      test := none }

/-- Raw input table as `random_splitting` receives it: the `peptide` and
`target_value` columns may each be present or absent; Python attribute
access `data.peptide` raises `AttributeError` on an absent column. -/
structure RawTable where
  peptide : Option (List String)
  target_value : Option (List Nat)
deriving DecidableEq, Repr

/-- Entry point of `random_splitting` with the column accesses of lines 126-131
made explicit: `data.peptide.values` then `data.target_value.values` are
read (each raising `AttributeError` when the column is absent) before the
split is computed on the zipped rows. -/
def random_splitting_checked (amb : Nat) (t : RawTable)
    (evalNum evalDen valNum valDen : Nat) : Except PyErr SplitResult :=
  match t.peptide with
  | none => Except.error PyErr.attributeError
  | some peps =>
    match t.target_value with
    | none => Except.error PyErr.attributeError
    | some tvs =>
      Except.ok (random_splitting amb
        ((peps.zip tvs).map (fun pt => { peptide := pt.1, target_value := pt.2 }))
        evalNum evalDen valNum valDen)

/-- A row of the public mouse table: the three columns
`random_splitting_mouse` reads (`Peptide Sequence`, `Uniprot Accession`,
`label`). -/
structure MouseRow where
  peptideSequence : String
  uniprotAccession : String
  label : Nat
deriving DecidableEq, Repr

/-- Result of `random_splitting_mouse`: three row lists. -/
structure MouseSplit where
  train : List MouseRow
  val : List MouseRow
  test : List MouseRow
deriving DecidableEq, Repr

/-- Oracle type for `random.sample(s, k)` on a Python set of accessions:
the source wraps the result back into a set, so the oracle returns a
`Finset`.  The calls are unseeded, hence the oracle parameter; theorems
state validity of its outputs (subset of the pool) as hypotheses. -/
def ProteinSampler : Type := Finset String → Nat → Finset String

/-- Oracle type for unseeded `df.sample(n)` on the negative pool. -/
def RowSampler : Type := List MouseRow → Nat → List MouseRow

/-- splits.py lines 179-181: `set(data.loc[data.label == 1]["Uniprot
Accession"].to_list())`, the accessions of positive-label rows. -/
def mouse_unique_proteins (data : List MouseRow) : Finset String :=
  ((data.filter (fun r => r.label == 1)).map
    (fun r => r.uniprotAccession)).toFinset

/-- splits.py lines 182-184: `set(random.sample(unique_proteins,
int(len(unique_proteins) * 0.1)))`; `int(n * 0.1)` is `n / 10` rounded
down. -/
def mouse_val_proteins (sp : ProteinSampler) (data : List MouseRow) :
    Finset String :=
  sp (mouse_unique_proteins data) ((mouse_unique_proteins data).card / 10)

/-- splits.py lines 185-189: sample of the same size drawn from
`unique_proteins - val_proteins`. -/
def mouse_test_proteins (sp : ProteinSampler) (data : List MouseRow) :
    Finset String :=
  sp (mouse_unique_proteins data \ mouse_val_proteins sp data)
    ((mouse_unique_proteins data).card / 10)

/-- splits.py line 190: `unique_proteins - test_proteins.union(val_proteins)`. -/
def mouse_train_proteins (sp : ProteinSampler) (data : List MouseRow) :
    Finset String :=
  mouse_unique_proteins data \
    (mouse_test_proteins sp data ∪ mouse_val_proteins sp data)

/-- splits.py line 192: rows whose accession is a training protein. -/
def mouse_X_train_data (sp : ProteinSampler) (data : List MouseRow) :
    List MouseRow :=
  data.filter (fun r => decide (r.uniprotAccession ∈ mouse_train_proteins sp data))

/-- splits.py line 193: rows whose accession is a validation protein. -/
def mouse_X_val_data (sp : ProteinSampler) (data : List MouseRow) :
    List MouseRow :=
  data.filter (fun r => decide (r.uniprotAccession ∈ mouse_val_proteins sp data))

/-- splits.py line 194: rows whose accession is a test protein. -/
def mouse_X_test_data (sp : ProteinSampler) (data : List MouseRow) :
    List MouseRow :=
  data.filter (fun r => decide (r.uniprotAccession ∈ mouse_test_proteins sp data))

/-- splits.py line 196, the pool sampled from first: `data.loc[data.label == 0]`. -/
def mouse_neg_pool0 (data : List MouseRow) : List MouseRow :=
  data.filter (fun r => r.label == 0)

/-- splits.py line 196: `data.loc[data.label == 0].sample(len(X_train_data) * 5)`. -/
def mouse_X_train_neg (sp : ProteinSampler) (sr : RowSampler)
    (data : List MouseRow) : List MouseRow :=
  sr (mouse_neg_pool0 data) ((mouse_X_train_data sp data).length * 5)

/-- splits.py lines 197-201, the pool sampled from second: the negative
rows whose peptide sequence was not drawn for the training negatives. -/
def mouse_neg_pool1 (sp : ProteinSampler) (sr : RowSampler)
    (data : List MouseRow) : List MouseRow :=
  (mouse_neg_pool0 data).filter (fun r =>
    decide (r.peptideSequence ∉
      ((mouse_X_train_neg sp sr data).map
        (fun x => x.peptideSequence)).toFinset))

/-- splits.py line 202: `data.loc[data.label == 0].sample(len(X_val_data) * 5)`
drawn from the reduced pool. -/
def mouse_X_val_neg (sp : ProteinSampler) (sr : RowSampler)
    (data : List MouseRow) : List MouseRow :=
  sr (mouse_neg_pool1 sp sr data) ((mouse_X_val_data sp data).length * 5)

/-- splits.py lines 203-209, the pool sampled from third: the remaining
negative rows whose peptide is in neither the validation-negative nor the
training-negative peptide set. -/
def mouse_neg_pool2 (sp : ProteinSampler) (sr : RowSampler)
    (data : List MouseRow) : List MouseRow :=
  (mouse_neg_pool1 sp sr data).filter (fun r =>
    decide (r.peptideSequence ∉
      (((mouse_X_val_neg sp sr data).map
          (fun x => x.peptideSequence)).toFinset ∪
        ((mouse_X_train_neg sp sr data).map
          (fun x => x.peptideSequence)).toFinset)))

/-- splits.py line 210: `data.loc[data.label == 0].sample(len(X_test_data) * 5)`. -/
def mouse_X_test_neg (sp : ProteinSampler) (sr : RowSampler)
    (data : List MouseRow) : List MouseRow :=
  sr (mouse_neg_pool2 sp sr data) ((mouse_X_test_data sp data).length * 5)

/-- Embeds `random_splitting_mouse(data)` (splits.py lines 173-228): the
accession-stratified positive partitions appended with the sequentially
drawn negative samples (lines 212-214); CSV writing and printing are
dropped. -/
def random_splitting_mouse (sp : ProteinSampler) (sr : RowSampler)
    (data : List MouseRow) : MouseSplit :=
  { train := mouse_X_train_data sp data ++ mouse_X_train_neg sp sr data,
    val := mouse_X_val_data sp data ++ mouse_X_val_neg sp sr data,
    test := mouse_X_test_data sp data ++ mouse_X_test_neg sp sr data }

/-- Peptide-identity set of a list of mouse rows. -/
def mousePeptideSet (rows : List MouseRow) : Finset String :=
  (rows.map (fun r => r.peptideSequence)).toFinset

/-- A row of the precomputed similarity-group table
`pos_pep_lev_groups.csv`: a peptide and its Levenshtein cluster id. -/
structure LevRow where
  peptide : String
  lev_group : Nat
deriving DecidableEq, Repr

/-- A row of the merged table `data.merge(pos_groups, on="peptide",
how="left")`: the original columns plus the matched `lev_group`, absent
(`none`, pandas `NaN`) when the peptide has no entry in `pos_groups`. -/
structure MergedRow where
  peptide : String
  target_value : Nat
  lev_group : Option Nat
deriving DecidableEq, Repr

/-- Left merge of the data table with the similarity-group table on the
`peptide` column: each data row is paired with every matching group row,
or kept once with an absent group when no row matches. -/
def merge_left (data : List HRow) (pg : List LevRow) : List MergedRow :=
  data.flatMap (fun r =>
    let ms := pg.filter (fun m => m.peptide == r.peptide)
    if ms.isEmpty then
      [{ peptide := r.peptide, target_value := r.target_value, lev_group := none }]
    else
      ms.map (fun m =>
        { peptide := r.peptide, target_value := r.target_value,
          lev_group := some m.lev_group }))

/-- Result of `leventstein`: three row lists over the merged table. -/
structure LevSplit where
  train : List MergedRow
  val : List MergedRow
  test : List MergedRow
deriving DecidableEq, Repr

/-- Oracle type for the unseeded `pos_groups.sample(frac=1)` row shuffle
(splits.py line 270). -/
def LevShuffle : Type := List LevRow → List LevRow

/-- Oracle type for the unseeded `Series.sample(frac=..., replace=False)`
draws on the deduplicated group ids (splits.py lines 273 and 275); the
second argument is the number of ids drawn, `round(frac * n)`. -/
def GroupSampler : Type := List Nat → Nat → List Nat

/-- splits.py lines 269-271: the shuffled group table's `lev_group` column
with duplicates dropped (first occurrence kept). -/
def lev_lev_groups (sh : LevShuffle) (posGroups : List LevRow) : List Nat :=
  ((sh posGroups).map (fun r => r.lev_group)).dedup

/-- splits.py line 273: `lev_groups.sample(frac=0.8, replace=False)`. -/
def lev_group_train (sh : LevShuffle) (sg : GroupSampler)
    (posGroups : List LevRow) : List Nat :=
  sg (lev_lev_groups sh posGroups)
    (roundFrac 4 5 (lev_lev_groups sh posGroups).length)

/-- splits.py line 274: `lev_groups.drop(lev_group_train.index)`; the ids
are unique after `drop_duplicates`, so dropping the sampled index labels
keeps exactly the ids not drawn for training. -/
def lev_group_eval (sh : LevShuffle) (sg : GroupSampler)
    (posGroups : List LevRow) : List Nat :=
  (lev_lev_groups sh posGroups).filter (fun g =>
    decide (g ∉ lev_group_train sh sg posGroups))

/-- splits.py line 275: `lev_group_eval.sample(frac=0.5, replace=False)`. -/
def lev_group_val (sh : LevShuffle) (sg : GroupSampler)
    (posGroups : List LevRow) : List Nat :=
  sg (lev_group_eval sh sg posGroups)
    (roundFrac 1 2 (lev_group_eval sh sg posGroups).length)

/-- splits.py line 276: `lev_group_eval.drop(lev_group_val.index)`. -/
def lev_group_test (sh : LevShuffle) (sg : GroupSampler)
    (posGroups : List LevRow) : List Nat :=
  (lev_group_eval sh sg posGroups).filter (fun g =>
    decide (g ∉ lev_group_val sh sg posGroups))

/-- Membership of a merged row's group id in a list of ids, as the pandas
`data["lev_group"].isin(ids)` test: an absent group (`NaN`) never matches. -/
def levGroupIn (ids : List Nat) (r : MergedRow) : Bool :=
  match r.lev_group with
  | some g => decide (g ∈ ids)
  | none => false

/-- splits.py lines 279-281: merged rows whose group id was drawn for
training (the source then drops the `lev_group` column; the column is
kept here, which leaves the peptide sets unchanged). -/
def lev_positive_train (sh : LevShuffle) (sg : GroupSampler)
    (posGroups : List LevRow) (data : List HRow) : List MergedRow :=
  (merge_left data (sh posGroups)).filter
    (levGroupIn (lev_group_train sh sg posGroups))

/-- splits.py lines 282-284. -/
def lev_positive_val (sh : LevShuffle) (sg : GroupSampler)
    (posGroups : List LevRow) (data : List HRow) : List MergedRow :=
  (merge_left data (sh posGroups)).filter
    (levGroupIn (lev_group_val sh sg posGroups))

/-- splits.py lines 285-287. -/
def lev_positive_test (sh : LevShuffle) (sg : GroupSampler)
    (posGroups : List LevRow) (data : List HRow) : List MergedRow :=
  (merge_left data (sh posGroups)).filter
    (levGroupIn (lev_group_test sh sg posGroups))

/-- Embeds `leventstein(data)` (splits.py lines 263-332).  `posGroups` is
the externally read `pos_pep_lev_groups.csv`; `sh` and `sg` are the
unseeded shuffle/sample oracles; the negative random split passes
`random_state=42` (lines 292-297 and 307) exactly as `random_splitting`
does.  Lines 300-315 select the negative partitions from the full merged
table by peptide membership; line 311 binds
`X_test, X_val = remove_overlapping_peptides(set(X_test.peptide),
set(X_val.peptide))`, so the final negative test peptides are
`test − val` and the final negative val peptides are the sampled val
peptides.  CSV writing and printing are dropped. -/
def leventstein (amb : Nat) (sh : LevShuffle) (sg : GroupSampler)
    (posGroups : List LevRow) (data : List HRow) : LevSplit :=
  let merged := merge_left data (sh posGroups)
  let negative_data := merged.filter (fun r => r.target_value == 0)
  let tts := train_test_split (some 42) amb 1 5
    (negative_data.map (fun r => r.peptide))
  let rov : Finset String × Finset String :=
    remove_overlapping_peptides tts.1.toFinset tts.2.toFinset
  let negative_peptides_train := merged.filter (fun r => decide (r.peptide ∈ rov.1))
  let X_eval_data := merged.filter (fun r => decide (r.peptide ∈ rov.2))
  let sp := detSample (some 42) amb 1 2 X_eval_data
  let rov2 : Finset String × Finset String := remove_overlapping_peptides
    ((sp.2.map (fun r => r.peptide)).toFinset : Finset String)
    ((sp.1.map (fun r => r.peptide)).toFinset : Finset String)
  let negative_peptides_val := merged.filter (fun r => decide (r.peptide ∈ rov2.2))
  let negative_peptides_test := merged.filter (fun r => decide (r.peptide ∈ rov2.1))
  { train := lev_positive_train sh sg posGroups data ++ negative_peptides_train,
    val := lev_positive_val sh sg posGroups data ++ negative_peptides_val,
    test := lev_positive_test sh sg posGroups data ++ negative_peptides_test }

/-- Peptide-identity set of a list of merged rows. -/
def levPeptideSet (rows : List MergedRow) : Finset String :=
  (rows.map (fun r => r.peptide)).toFinset

/-- The metric keys of the default `metrics` dictionary of
`TransformerModel.__init__` (models.py lines 54-67). -/
def default_metrics : List String :=
  ["accuracy", "auroc", "roc", "precision", "recall", "f1",
   "precision_recall_curve", "confusion_matrix", "matthews", "cohen"]

/-- A batch as the step methods use it: its `y` label tensor, flattened to
a list of labels. -/
structure Batch where
  y : List Nat
deriving DecidableEq, Repr

/-- The attribute state of a `TransformerModel` instance relevant to the
step methods.  `metrics` is the slot for `self.metrics`: it is `none`
when the attribute was never assigned, in which case reading it raises
`AttributeError` (torch `nn.Module.__getattr__`).  The tensor submodules
(`pos_encoder`, `transformer_encoder`, `embedding`, `feedforward`) and
the float hyperparameters are outside this embedding; `loss_fn` is kept
abstract as a function from predictions and labels to a loss value. -/
structure TransformerModel where
  model_type : String
  seq_len : Nat
  embedding_size : Nat
  loss_fn : List Nat → List Nat → Nat
  metrics : Option (List String)

/-- Embeds `TransformerModel.__init__` (models.py lines 40-107): it
receives the `metrics` dictionary parameter (default `default_metrics`)
but assigns only `model_type`, `seq_len`, the submodules,
`embedding_size`, `loss_fn`, `start_learning_rate` and `weight_decay`;
`self.metrics` is never assigned, so the resulting attribute state has
`metrics := none`. -/
def TransformerModel.init (seq_len n_tokens embedding_size n_attn_heads
    enc_ff_hidden ff_hidden n_layers : Nat)
    (loss_fn : List Nat → List Nat → Nat)
    (metrics : List String) : TransformerModel :=
  { model_type := "Transformer",
    seq_len := seq_len,
    embedding_size := embedding_size,
    loss_fn := loss_fn,
    metrics := none }

/-- Embeds `evaluate_model(self, y_true, y_pred, prefix)` (models.py lines
158-166): iterates over `self.metrics.keys()` and logs each metric under
the key `f"{prefix}_{metric}"`; reading `self.metrics` raises
`AttributeError` when the attribute was never assigned.  The returned
list records the log keys written. -/
def TransformerModel.evaluate_model (m : TransformerModel)
    (y_true y_pred : List Nat) (phase : String) :
    Except PyErr (List String) :=
  match m.metrics with
  | none => Except.error PyErr.attributeError
  | some ms => Except.ok (ms.map (fun k => phase ++ "_" ++ k))

/-- Embeds `training_step` (models.py lines 168-175): computes
`y_hat = self(batch)` (the forward pass, abstracted as `fw`), the loss
`self.loss_fn(y_hat, batch.y)`, logs `"train_loss"`, then calls
`evaluate_model(batch.y, y_hat, "train")`.  Returns the loss, the log
keys written, and the outcome. -/
def TransformerModel.training_step (m : TransformerModel)
    (fw : Batch → List Nat) (batch : Batch) :
    Nat × List String × Except PyErr Unit :=
  let y_hat := fw batch
  let loss := m.loss_fn y_hat batch.y
  match m.evaluate_model batch.y y_hat "train" with
  | Except.error e => (loss, ["train_loss"], Except.error e)
  | Except.ok keys => (loss, "train_loss" :: keys, Except.ok ())

/-- Embeds `validation_step` (models.py lines 177-181): the same as
`training_step` with log key `"val_loss"` and phase `"validation"`. -/
def TransformerModel.validation_step (m : TransformerModel)
    (fw : Batch → List Nat) (batch : Batch) :
    Nat × List String × Except PyErr Unit :=
  let y_hat := fw batch
  let loss := m.loss_fn y_hat batch.y
  match m.evaluate_model batch.y y_hat "validation" with
  | Except.error e => (loss, ["val_loss"], Except.error e)
  | Except.ok keys => (loss, "val_loss" :: keys, Except.ok ())

/-- Embeds `test_step` (models.py lines 183-189): the same as
`training_step` with log key `"test_loss"` and phase `"test"`. -/
def TransformerModel.test_step (m : TransformerModel)
    (fw : Batch → List Nat) (batch : Batch) :
    Nat × List String × Except PyErr Unit :=
  let y_hat := fw batch
  let loss := m.loss_fn y_hat batch.y
  match m.evaluate_model batch.y y_hat "test" with
  | Except.error e => (loss, ["test_loss"], Except.error e)
  | Except.ok keys => (loss, "test_loss" :: keys, Except.ok ())

theorem mem_of_mem_detShuffle {α : Type} {xs : List α} {x : α} {seed : Nat}
    (h : x ∈ detShuffle seed xs) : x ∈ xs := by
  simpa [detShuffle, List.mem_rotate] using h

theorem detSample_fst_subset {α : Type} (rs : Option Nat) (amb num den : Nat)
    (xs : List α) : (detSample rs amb num den xs).1 ⊆ xs := by
  intro x hx
  exact mem_of_mem_detShuffle (List.take_subset _ _ hx)

theorem detSample_snd_subset {α : Type} (rs : Option Nat) (amb num den : Nat)
    (xs : List α) : (detSample rs amb num den xs).2 ⊆ xs := by
  intro x hx
  exact mem_of_mem_detShuffle (List.drop_subset _ _ hx)

theorem peptideSet_filter_subset (data : List HRow) (s : Finset String) :
    peptideSet (data.filter (fun r => decide (r.peptide ∈ s))) ⊆ s := by
  intro x hx
  simp only [peptideSet, List.mem_toFinset, List.mem_map] at hx
  obtain ⟨r, hr, rfl⟩ := hx
  have := (List.mem_filter.mp hr).2
  simpa using this

theorem pep_toFinset_subset_of_rows_subset {rows data : List HRow}
    {s : Finset String}
    (hsub : rows ⊆ data.filter (fun r => decide (r.peptide ∈ s))) :
    (rows.map (fun r => r.peptide)).toFinset ⊆ s := by
  intro x hx
  simp only [List.mem_toFinset, List.mem_map] at hx
  obtain ⟨r, hr, rfl⟩ := hx
  have := (List.mem_filter.mp (hsub hr)).2
  simpa using this

theorem filter_pepsets_inter_empty (data : List HRow) {s t : Finset String}
    (hst : Disjoint s t) :
    peptideSet (data.filter (fun r => decide (r.peptide ∈ s))) ∩
      peptideSet (data.filter (fun r => decide (r.peptide ∈ t))) = ∅ := by
  exact Finset.disjoint_iff_inter_eq_empty.mp
    (hst.mono (peptideSet_filter_subset data s) (peptideSet_filter_subset data t))

theorem rs_train_eval_disjoint (amb : Nat) (data : List HRow)
    (evalNum evalDen : Nat) :
    Disjoint (rs_train_set amb data evalNum evalDen)
      (rs_eval_set amb data evalNum evalDen) := by
  simp only [rs_train_set, rs_eval_set, remove_overlapping_peptides]
  exact Finset.sdiff_disjoint

theorem rs_X_val_peps_subset (amb : Nat) (data : List HRow)
    (evalNum evalDen valNum valDen : Nat) :
    (rs_X_val_peps amb data evalNum evalDen valNum valDen).toFinset ⊆
      rs_eval_set amb data evalNum evalDen := by
  refine @pep_toFinset_subset_of_rows_subset _ data _ ?_
  intro r hr
  exact detSample_fst_subset _ _ _ _ _ hr

theorem rs_X_test_peps_subset (amb : Nat) (data : List HRow)
    (evalNum evalDen valNum valDen : Nat) :
    (rs_X_test_peps amb data evalNum evalDen valNum valDen).toFinset ⊆
      rs_eval_set amb data evalNum evalDen := by
  refine @pep_toFinset_subset_of_rows_subset _ data _ ?_
  intro r hr
  exact detSample_snd_subset _ _ _ _ _ hr

/-- Claim C1 (amended): for `random_splitting`, the peptide-identity sets
of any two splits produced by the same call (train/val, train/test,
val/test) are pairwise disjoint, for every input table, every ambient RNG
state and every pair of split fractions.  (As stated over all four
strategies the claim fails: see the counterexample theorem, which
exhibits a `leventstein` run whose train and val splits share a peptide.) -/
theorem random_splitting_pairwise_disjoint (amb : Nat) (data : List HRow)
    (evalNum evalDen valNum valDen : Nat) :
    peptideSet (random_splitting amb data evalNum evalDen valNum valDen).train ∩
      peptideSet (random_splitting amb data evalNum evalDen valNum valDen).val = ∅ ∧
    peptideSet (random_splitting amb data evalNum evalDen valNum valDen).train ∩
      testPeptideSet (random_splitting amb data evalNum evalDen valNum valDen) = ∅ ∧
    peptideSet (random_splitting amb data evalNum evalDen valNum valDen).val ∩
      testPeptideSet (random_splitting amb data evalNum evalDen valNum valDen) = ∅ := by
  have hval := rs_X_val_peps_subset amb data evalNum evalDen valNum valDen
  have htest := rs_X_test_peps_subset amb data evalNum evalDen valNum valDen
  have hte := rs_train_eval_disjoint amb data evalNum evalDen
  by_cases h : (rs_X_test_peps amb data evalNum evalDen valNum valDen).length ≠ 0
  · simp only [random_splitting, if_pos h, remove_overlapping_peptides,
      testPeptideSet, rs_X_train_data]
    refine ⟨?_, ?_, ?_⟩
    · exact filter_pepsets_inter_empty data (hte.mono_right htest)
    · exact filter_pepsets_inter_empty data
        (hte.mono_right (le_trans (Finset.sdiff_subset) hval))
    · exact filter_pepsets_inter_empty data
        (Finset.sdiff_disjoint.symm)
  · simp only [random_splitting, if_neg h, testPeptideSet, rs_X_train_data]
    refine ⟨?_, ?_, ?_⟩
    · exact filter_pepsets_inter_empty data (hte.mono_right hval)
    · exact Finset.inter_empty _
    · exact Finset.inter_empty _

/-- Counterexample input for claim C1: a table in which the peptide "AB"
occurs once with a positive and twice with a negative label (two negative
rows keep the sklearn train part of the negative split nonempty), and a
group table assigning "AB" to Levenshtein group 0.  Every peptide of the
table is "AB", so the run below is insensitive to which permutations the
seeded library RNG draws. -/
def levCxData : List HRow :=
  [{ peptide := "AB", target_value := 1 },
   { peptide := "AB", target_value := 0 },
   { peptide := "AB", target_value := 0 }]

def levCxPosGroups : List LevRow := [{ peptide := "AB", lev_group := 0 }]

/-- The identity shuffle: the only possible outcome of `sample(frac=1)` on
a one-row table. -/
def levCxShuffle : LevShuffle := fun l => l

/-- Prefix sampling: with the pools and sizes arising on `levCxData` (a
draw of 1 id from the one-element pool `[0]`, then a draw of 0 ids), its
outputs are the only outcomes the unseeded pandas `sample` can produce. -/
def levCxSampler : GroupSampler := fun l n => l.take n

/-- Claim C1, counterexample: the claim quantifies over all four splitting
strategies, but on `levCxData` the `leventstein` strategy puts the peptide
"AB" into both the train split (its Levenshtein group, the only one, is
drawn for training, selecting all three merged rows) and the val split
("AB" ends up as the negative validation peptide set after the two
`remove_overlapping_peptides` passes, and the val rows are re-selected
from the full merged table by peptide), so the train/val peptide-identity
sets intersect. -/
theorem leventstein_not_pairwise_disjoint_cx :
    levPeptideSet (leventstein 0 levCxShuffle levCxSampler levCxPosGroups levCxData).train ∩
      levPeptideSet (leventstein 0 levCxShuffle levCxSampler levCxPosGroups levCxData).val ≠ ∅ := by
  decide

/-- Claim C2: for all finite sets `peptides_1` and `peptides_2`,
`remove_overlapping_peptides(peptides_1, peptides_2)` returns the pair
`(peptides_1 \ peptides_2, peptides_2)`: the first component removes
every element of `peptides_2` from `peptides_1`, and the second component
is `peptides_2` unchanged. -/
theorem remove_overlapping_peptides_spec {α : Type} [DecidableEq α]
    (peptides_1 peptides_2 : Finset α) :
    remove_overlapping_peptides peptides_1 peptides_2 =
        (peptides_1 \ peptides_2, peptides_2) ∧
    (∀ x, x ∈ (remove_overlapping_peptides peptides_1 peptides_2).1 ↔
        x ∈ peptides_1 ∧ x ∉ peptides_2) ∧
    (remove_overlapping_peptides peptides_1 peptides_2).2 = peptides_2 := by
  refine ⟨rfl, fun x => ?_, rfl⟩
  simp [remove_overlapping_peptides, Finset.mem_sdiff]

/-- Claim C4: `random_splitting` is deterministic for the fixed random
seed its call sites hard-code (`random_state=42`): two runs on the same
input table with the same `eval_frac` and `val_frac`, even under
different ambient RNG states `amb1` and `amb2`, produce identical train,
validation, and test splits. -/
theorem random_splitting_deterministic (amb1 amb2 : Nat) (data : List HRow)
    (evalNum evalDen valNum valDen : Nat) :
    random_splitting amb1 data evalNum evalDen valNum valDen =
      random_splitting amb2 data evalNum evalDen valNum valDen := rfl

theorem count_zero_add_count_one (l : List Nat) (h : ∀ v ∈ l, v = 0 ∨ v = 1) :
    l.count 0 + l.count 1 = l.length := by
  induction l with
  | nil => simp
  | cons a t ih =>
    have ha := h a (by simp)
    have ht : ∀ v ∈ t, v = 0 ∨ v = 1 := fun v hv => h v (by simp [hv])
    have iht := ih ht
    rcases ha with h0 | h1 <;> subst_vars <;>
      simp [List.count_cons] <;> omega

/-- Claim C5: for every partition dataframe passed to `label_dist_summary`
whose target column contains only the labels 0 and 1, the printed
negative-sample count plus the printed positive-sample count equals the
number of rows of the partition (the length of its target column). -/
theorem label_dist_summary_counts_sum (df : PyDataFrame) (target_col : String)
    (col : List Nat) (c0 c1 : Nat)
    (hcol : df.getCol target_col = some col)
    (hv : ∀ v ∈ col, v = 0 ∨ v = 1)
    (hr : label_dist_summary df target_col = Except.ok (c0, c1)) :
    c0 + c1 = col.length := by
  unfold label_dist_summary at hr
  rw [hcol] at hr
  by_cases h0 : col.count 0 = 0
  · simp [h0] at hr
  · by_cases h1 : col.count 1 = 0
    · simp [h0, h1] at hr
    · simp [h0, h1] at hr
      obtain ⟨hc0, hc1⟩ := hr
      subst hc0; subst hc1
      exact count_zero_add_count_one col hv

/-- Partition with a target column holding one negative and two positive
labels, used to instantiate the C5 theorem. -/
def c5Df : PyDataFrame := { cols := [("target_value", [0, 1, 1])] }

/-- Claim C5, witness: on `c5Df` the hypotheses of
`label_dist_summary_counts_sum` hold and the printed counts 1 and 2 sum
to the 3 rows. -/
theorem label_dist_summary_counts_sum_witness :
    c5Df.getCol "target_value" = some [0, 1, 1] ∧
    (∀ v ∈ ([0, 1, 1] : List Nat), v = 0 ∨ v = 1) ∧
    label_dist_summary c5Df "target_value" = Except.ok (1, 2) ∧
    1 + 2 = ([0, 1, 1] : List Nat).length :=
  ⟨rfl, by decide, rfl,
    label_dist_summary_counts_sum c5Df "target_value" [0, 1, 1] 1 2 rfl
      (by decide) rfl⟩

theorem filter_length_lt {α : Type} (p : α → Bool) (l : List α) (x : α)
    (hx : x ∈ l) (hp : ¬ p x = true) : (l.filter p).length < l.length := by
  have hle := List.length_filter_le p l
  rcases Nat.lt_or_ge (l.filter p).length l.length with h | h
  · exact h
  · exact absurd (List.filter_length_eq_length.mp (le_antisymm hle h) x hx) hp

/-- Claim C3 (amended): in `random_splitting_mouse` the negative pool
never grows, and it strictly decreases after each group's sampling step
provided that group's sample is drawn from the pool and is nonempty.
(As stated unconditionally the claim fails: see the counterexample
theorem, where the group partitions are empty, the samples of size
`len * 5 = 0` are empty, and the pool keeps its size.) -/
theorem mouse_neg_pool_strictly_decreases (sp : ProteinSampler)
    (sr : RowSampler) (data : List MouseRow)
    (h1m : ∀ r ∈ mouse_X_train_neg sp sr data, r ∈ mouse_neg_pool0 data)
    (h1ne : mouse_X_train_neg sp sr data ≠ [])
    (h2m : ∀ r ∈ mouse_X_val_neg sp sr data, r ∈ mouse_neg_pool1 sp sr data)
    (h2ne : mouse_X_val_neg sp sr data ≠ []) :
    (mouse_neg_pool1 sp sr data).length < (mouse_neg_pool0 data).length ∧
    (mouse_neg_pool2 sp sr data).length < (mouse_neg_pool1 sp sr data).length := by
  constructor
  · obtain ⟨x, hx⟩ := List.exists_mem_of_ne_nil _ h1ne
    refine filter_length_lt _ _ x (h1m x hx) ?_
    simp only [decide_eq_true_eq, not_not, List.mem_toFinset, List.mem_map]
    exact ⟨x, hx, rfl⟩
  · obtain ⟨x, hx⟩ := List.exists_mem_of_ne_nil _ h2ne
    refine filter_length_lt _ _ x (h2m x hx) ?_
    simp only [decide_eq_true_eq, not_not, Finset.mem_union, List.mem_toFinset,
      List.mem_map]
    exact Or.inl ⟨x, hx, rfl⟩

/-- Two negative rows used to instantiate the C3 theorem. -/
def mouseWData : List MouseRow :=
  [{ peptideSequence := "n1", uniprotAccession := "P", label := 0 },
   { peptideSequence := "n2", uniprotAccession := "Q", label := 0 }]

def mouseWSp : ProteinSampler := fun _ _ => ∅

/-- A sampler drawing the first pool row regardless of the requested size. -/
def mouseWSr : RowSampler := fun pool _ => pool.take 1

/-- Claim C3, witness: on `mouseWData` with the samplers above, both
samples are nonempty rows of their pools and both pool sizes strictly
decrease (2 to 1 to 0). -/
theorem mouse_neg_pool_strictly_decreases_witness :
    (∀ r ∈ mouse_X_train_neg mouseWSp mouseWSr mouseWData,
        r ∈ mouse_neg_pool0 mouseWData) ∧
    mouse_X_train_neg mouseWSp mouseWSr mouseWData ≠ [] ∧
    (∀ r ∈ mouse_X_val_neg mouseWSp mouseWSr mouseWData,
        r ∈ mouse_neg_pool1 mouseWSp mouseWSr mouseWData) ∧
    mouse_X_val_neg mouseWSp mouseWSr mouseWData ≠ [] ∧
    ((mouse_neg_pool1 mouseWSp mouseWSr mouseWData).length <
        (mouse_neg_pool0 mouseWData).length ∧
      (mouse_neg_pool2 mouseWSp mouseWSr mouseWData).length <
        (mouse_neg_pool1 mouseWSp mouseWSr mouseWData).length) :=
  ⟨by decide, by decide, by decide, by decide,
    mouse_neg_pool_strictly_decreases mouseWSp mouseWSr mouseWData
      (by decide) (by decide) (by decide) (by decide)⟩

/-- Counterexample input for claim C3: a table with a single negative row
and no positive row, so every accession partition is empty and every
negative sample has requested size 0. -/
def mouseCxData : List MouseRow :=
  [{ peptideSequence := "n1", uniprotAccession := "P", label := 0 }]

def mouseCxSp : ProteinSampler := fun _ _ => ∅

/-- Prefix sampling: `sample(n)` drawing the first `n` pool rows; with the
sizes arising on `mouseCxData` (all 0) its outputs are the only outcomes
pandas `sample` can produce. -/
def mouseCxSr : RowSampler := fun pool n => pool.take n

/-- Claim C3, counterexample: on `mouseCxData` the pool used for the
validation negatives has the same size (1) as the pool used for the
training negatives — the empty training sample removed nothing — so the
pool does not strictly decrease after the training group's sampling
step. -/
theorem mouse_neg_pool_not_strictly_decreasing_cx :
    ¬ ((mouse_neg_pool1 mouseCxSp mouseCxSr mouseCxData).length <
        (mouse_neg_pool0 mouseCxData).length) := by
  decide

/-- Claim C6: in `random_splitting_mouse` the train, validation, and test
protein-accession sets are pairwise disjoint and jointly cover all unique
accessions of positive-label rows, and each row of a partition selected
by accession has its accession in that partition's protein set only.
The two hypotheses state that the unseeded `random.sample` draws are
possible ones: a subset of `unique_proteins`, respectively of
`unique_proteins - val_proteins`. -/
theorem mouse_protein_stratification (sp : ProteinSampler) (data : List MouseRow)
    (hval : mouse_val_proteins sp data ⊆ mouse_unique_proteins data)
    (htest : mouse_test_proteins sp data ⊆
      mouse_unique_proteins data \ mouse_val_proteins sp data) :
    mouse_train_proteins sp data ∩ mouse_val_proteins sp data = ∅ ∧
    mouse_train_proteins sp data ∩ mouse_test_proteins sp data = ∅ ∧
    mouse_val_proteins sp data ∩ mouse_test_proteins sp data = ∅ ∧
    mouse_train_proteins sp data ∪ mouse_val_proteins sp data ∪
      mouse_test_proteins sp data = mouse_unique_proteins data ∧
    (∀ r ∈ mouse_X_train_data sp data,
      r.uniprotAccession ∈ mouse_train_proteins sp data ∧
      r.uniprotAccession ∉ mouse_val_proteins sp data ∧
      r.uniprotAccession ∉ mouse_test_proteins sp data) ∧
    (∀ r ∈ mouse_X_val_data sp data,
      r.uniprotAccession ∈ mouse_val_proteins sp data ∧
      r.uniprotAccession ∉ mouse_train_proteins sp data ∧
      r.uniprotAccession ∉ mouse_test_proteins sp data) ∧
    (∀ r ∈ mouse_X_test_data sp data,
      r.uniprotAccession ∈ mouse_test_proteins sp data ∧
      r.uniprotAccession ∉ mouse_train_proteins sp data ∧
      r.uniprotAccession ∉ mouse_val_proteins sp data) := by
  have dTV : Disjoint (mouse_train_proteins sp data) (mouse_val_proteins sp data) := by
    exact Finset.sdiff_disjoint.mono_right Finset.subset_union_right
  have dTT : Disjoint (mouse_train_proteins sp data) (mouse_test_proteins sp data) := by
    exact Finset.sdiff_disjoint.mono_right Finset.subset_union_left
  have dVT : Disjoint (mouse_val_proteins sp data) (mouse_test_proteins sp data) :=
    (Finset.sdiff_disjoint.mono_left htest).symm
  refine ⟨Finset.disjoint_iff_inter_eq_empty.mp dTV,
    Finset.disjoint_iff_inter_eq_empty.mp dTT,
    Finset.disjoint_iff_inter_eq_empty.mp dVT, ?_, ?_, ?_, ?_⟩
  · ext a
    simp only [mouse_train_proteins, Finset.mem_union, Finset.mem_sdiff]
    constructor
    · rintro ((⟨hu, _⟩ | hv) | ht)
      · exact hu
      · exact hval hv
      · exact (Finset.mem_sdiff.mp (htest ht)).1
    · intro hu
      by_cases hT : a ∈ mouse_test_proteins sp data
      · exact Or.inr hT
      · by_cases hV : a ∈ mouse_val_proteins sp data
        · exact Or.inl (Or.inr hV)
        · exact Or.inl (Or.inl ⟨hu, fun h => h.elim hT hV⟩)
  · intro r hr
    have h := (List.mem_filter.mp hr).2
    simp only [decide_eq_true_eq] at h
    exact ⟨h, Finset.disjoint_left.mp dTV h, Finset.disjoint_left.mp dTT h⟩
  · intro r hr
    have h := (List.mem_filter.mp hr).2
    simp only [decide_eq_true_eq] at h
    exact ⟨h, Finset.disjoint_left.mp dTV.symm h, Finset.disjoint_left.mp dVT h⟩
  · intro r hr
    have h := (List.mem_filter.mp hr).2
    simp only [decide_eq_true_eq] at h
    exact ⟨h, Finset.disjoint_left.mp dTT.symm h, Finset.disjoint_left.mp dVT.symm h⟩

/-- One positive row, used to instantiate the C6 theorem. -/
def mouseC6Data : List MouseRow :=
  [{ peptideSequence := "p1", uniprotAccession := "P1", label := 1 }]

/-- Claim C6, witness: on `mouseC6Data` with the empty-set sampler the
hypotheses of `mouse_protein_stratification` hold, and its conclusion
follows at that input. -/
theorem mouse_protein_stratification_witness :
    mouse_val_proteins mouseWSp mouseC6Data ⊆ mouse_unique_proteins mouseC6Data ∧
    mouse_test_proteins mouseWSp mouseC6Data ⊆
      mouse_unique_proteins mouseC6Data \ mouse_val_proteins mouseWSp mouseC6Data ∧
    (mouse_train_proteins mouseWSp mouseC6Data ∩
        mouse_val_proteins mouseWSp mouseC6Data = ∅ ∧
      mouse_train_proteins mouseWSp mouseC6Data ∩
        mouse_test_proteins mouseWSp mouseC6Data = ∅ ∧
      mouse_val_proteins mouseWSp mouseC6Data ∩
        mouse_test_proteins mouseWSp mouseC6Data = ∅ ∧
      mouse_train_proteins mouseWSp mouseC6Data ∪
        mouse_val_proteins mouseWSp mouseC6Data ∪
        mouse_test_proteins mouseWSp mouseC6Data =
        mouse_unique_proteins mouseC6Data ∧
      (∀ r ∈ mouse_X_train_data mouseWSp mouseC6Data,
        r.uniprotAccession ∈ mouse_train_proteins mouseWSp mouseC6Data ∧
        r.uniprotAccession ∉ mouse_val_proteins mouseWSp mouseC6Data ∧
        r.uniprotAccession ∉ mouse_test_proteins mouseWSp mouseC6Data) ∧
      (∀ r ∈ mouse_X_val_data mouseWSp mouseC6Data,
        r.uniprotAccession ∈ mouse_val_proteins mouseWSp mouseC6Data ∧
        r.uniprotAccession ∉ mouse_train_proteins mouseWSp mouseC6Data ∧
        r.uniprotAccession ∉ mouse_test_proteins mouseWSp mouseC6Data) ∧
      (∀ r ∈ mouse_X_test_data mouseWSp mouseC6Data,
        r.uniprotAccession ∈ mouse_test_proteins mouseWSp mouseC6Data ∧
        r.uniprotAccession ∉ mouse_train_proteins mouseWSp mouseC6Data ∧
        r.uniprotAccession ∉ mouse_val_proteins mouseWSp mouseC6Data)) :=
  ⟨by decide, by decide,
    mouse_protein_stratification mouseWSp mouseC6Data (by decide) (by decide)⟩

theorem levGroupIn_true {ids : List Nat} {r : MergedRow}
    (h : levGroupIn ids r = true) : ∃ g, r.lev_group = some g ∧ g ∈ ids := by
  unfold levGroupIn at h
  cases hr : r.lev_group with
  | none => rw [hr] at h; cases h
  | some g =>
    rw [hr] at h
    exact ⟨g, rfl, by simpa using h⟩

theorem lev_eval_not_train (sh : LevShuffle) (sg : GroupSampler)
    (posGroups : List LevRow) {g : Nat}
    (h : g ∈ lev_group_eval sh sg posGroups) :
    g ∉ lev_group_train sh sg posGroups := by
  have := (List.mem_filter.mp h).2
  simpa using this

theorem lev_test_subset_eval (sh : LevShuffle) (sg : GroupSampler)
    (posGroups : List LevRow) {g : Nat}
    (h : g ∈ lev_group_test sh sg posGroups) :
    g ∈ lev_group_eval sh sg posGroups :=
  (List.mem_filter.mp h).1

theorem lev_test_not_val (sh : LevShuffle) (sg : GroupSampler)
    (posGroups : List LevRow) {g : Nat}
    (h : g ∈ lev_group_test sh sg posGroups) :
    g ∉ lev_group_val sh sg posGroups := by
  have := (List.mem_filter.mp h).2
  simpa using this

/-- Claim C7 (amended): in `leventstein`, the sets of Levenshtein group
ids assigned to train, validation, and test are pairwise disjoint, and no
two rows with the same precomputed `lev_group` value appear in different
positive-selection partitions (the rows lines 279-287 select by group
membership).  The hypothesis states that the unseeded validation draw is
a possible sample of `lev_group_eval`.  (The claim's stronger conclusion
about the final output splits fails: the negative splits appended to
these partitions are re-selected from the full merged table by peptide,
which can pull a positive row whose group went elsewhere — see the
counterexample theorem below.) -/
theorem lev_groups_pairwise_disjoint (sh : LevShuffle) (sg : GroupSampler)
    (posGroups : List LevRow) (data : List HRow)
    (hval : ∀ g ∈ lev_group_val sh sg posGroups,
      g ∈ lev_group_eval sh sg posGroups) :
    (lev_group_train sh sg posGroups).toFinset ∩
      (lev_group_val sh sg posGroups).toFinset = ∅ ∧
    (lev_group_train sh sg posGroups).toFinset ∩
      (lev_group_test sh sg posGroups).toFinset = ∅ ∧
    (lev_group_val sh sg posGroups).toFinset ∩
      (lev_group_test sh sg posGroups).toFinset = ∅ ∧
    (∀ a ∈ lev_positive_train sh sg posGroups data,
      ∀ b ∈ lev_positive_val sh sg posGroups data, a.lev_group ≠ b.lev_group) ∧
    (∀ a ∈ lev_positive_train sh sg posGroups data,
      ∀ b ∈ lev_positive_test sh sg posGroups data, a.lev_group ≠ b.lev_group) ∧
    (∀ a ∈ lev_positive_val sh sg posGroups data,
      ∀ b ∈ lev_positive_test sh sg posGroups data, a.lev_group ≠ b.lev_group) := by
  have dTrV : ∀ g ∈ lev_group_train sh sg posGroups,
      g ∉ lev_group_val sh sg posGroups :=
    fun g ht hv => lev_eval_not_train sh sg posGroups (hval g hv) ht
  have dTrT : ∀ g ∈ lev_group_train sh sg posGroups,
      g ∉ lev_group_test sh sg posGroups :=
    fun g ht hte => lev_eval_not_train sh sg posGroups
      (lev_test_subset_eval sh sg posGroups hte) ht
  have dVT : ∀ g ∈ lev_group_val sh sg posGroups,
      g ∉ lev_group_test sh sg posGroups :=
    fun g hv hte => lev_test_not_val sh sg posGroups hte hv
  have rowNe : ∀ (ids1 ids2 : List Nat),
      (∀ g ∈ ids1, g ∉ ids2) →
      ∀ a ∈ (merge_left data (sh posGroups)).filter (levGroupIn ids1),
      ∀ b ∈ (merge_left data (sh posGroups)).filter (levGroupIn ids2),
      a.lev_group ≠ b.lev_group := by
    intro ids1 ids2 hdis a ha b hb heq
    obtain ⟨g1, hg1, hg1m⟩ := levGroupIn_true (List.mem_filter.mp ha).2
    obtain ⟨g2, hg2, hg2m⟩ := levGroupIn_true (List.mem_filter.mp hb).2
    rw [hg1, hg2] at heq
    cases heq
    exact hdis g1 hg1m hg2m
  refine ⟨?_, ?_, ?_, rowNe _ _ dTrV, rowNe _ _ dTrT, rowNe _ _ dVT⟩
  · refine Finset.eq_empty_iff_forall_not_mem.mpr (fun g hg => ?_)
    obtain ⟨h1, h2⟩ := Finset.mem_inter.mp hg
    exact dTrV g (List.mem_toFinset.mp h1) (List.mem_toFinset.mp h2)
  · refine Finset.eq_empty_iff_forall_not_mem.mpr (fun g hg => ?_)
    obtain ⟨h1, h2⟩ := Finset.mem_inter.mp hg
    exact dTrT g (List.mem_toFinset.mp h1) (List.mem_toFinset.mp h2)
  · refine Finset.eq_empty_iff_forall_not_mem.mpr (fun g hg => ?_)
    obtain ⟨h1, h2⟩ := Finset.mem_inter.mp hg
    exact dVT g (List.mem_toFinset.mp h1) (List.mem_toFinset.mp h2)

/-- Two-group similarity table and one positive row, used to instantiate
the C7 theorem. -/
def levWPosGroups : List LevRow :=
  [{ peptide := "AB", lev_group := 0 }, { peptide := "CD", lev_group := 1 }]

def levWData : List HRow := [{ peptide := "AB", target_value := 1 }]

/-- Claim C7, witness: on `levWPosGroups`/`levWData` with the identity
shuffle and prefix sampling the sampling hypothesis holds and the
conclusion follows at that input. -/
theorem lev_groups_pairwise_disjoint_witness :
    (∀ g ∈ lev_group_val levCxShuffle levCxSampler levWPosGroups,
      g ∈ lev_group_eval levCxShuffle levCxSampler levWPosGroups) ∧
    ((lev_group_train levCxShuffle levCxSampler levWPosGroups).toFinset ∩
        (lev_group_val levCxShuffle levCxSampler levWPosGroups).toFinset = ∅ ∧
      (lev_group_train levCxShuffle levCxSampler levWPosGroups).toFinset ∩
        (lev_group_test levCxShuffle levCxSampler levWPosGroups).toFinset = ∅ ∧
      (lev_group_val levCxShuffle levCxSampler levWPosGroups).toFinset ∩
        (lev_group_test levCxShuffle levCxSampler levWPosGroups).toFinset = ∅ ∧
      (∀ a ∈ lev_positive_train levCxShuffle levCxSampler levWPosGroups levWData,
        ∀ b ∈ lev_positive_val levCxShuffle levCxSampler levWPosGroups levWData,
        a.lev_group ≠ b.lev_group) ∧
      (∀ a ∈ lev_positive_train levCxShuffle levCxSampler levWPosGroups levWData,
        ∀ b ∈ lev_positive_test levCxShuffle levCxSampler levWPosGroups levWData,
        a.lev_group ≠ b.lev_group) ∧
      (∀ a ∈ lev_positive_val levCxShuffle levCxSampler levWPosGroups levWData,
        ∀ b ∈ lev_positive_test levCxShuffle levCxSampler levWPosGroups levWData,
        a.lev_group ≠ b.lev_group)) :=
  ⟨by decide,
    lev_groups_pairwise_disjoint levCxShuffle levCxSampler levWPosGroups
      levWData (by decide)⟩

/-- Claim C8: no splitting routine raises a domain-specific error.  On a
table missing the `peptide` column or the `target_value` column,
`random_splitting` fails with a generic `AttributeError` at the attribute
accesses of lines 126-131; `label_dist_summary` fails with a generic
`KeyError` on a missing target column or a partition missing one of the
two label classes (lines 99-106); and every error any of these can
produce is one of the generic shapes (the code defines no custom
exception), terminating the invocation. -/
theorem splitting_errors_are_generic :
    (∀ amb t evalNum evalDen valNum valDen, t.peptide = none →
      random_splitting_checked amb t evalNum evalDen valNum valDen =
        Except.error PyErr.attributeError) ∧
    (∀ amb (t : RawTable) evalNum evalDen valNum valDen peps,
      t.peptide = some peps → t.target_value = none →
      random_splitting_checked amb t evalNum evalDen valNum valDen =
        Except.error PyErr.attributeError) ∧
    (∀ df tc col, PyDataFrame.getCol df tc = some col →
      (col.count 0 = 0 ∨ col.count 1 = 0) →
      label_dist_summary df tc = Except.error PyErr.keyError) ∧
    (∀ df tc, PyDataFrame.getCol df tc = none →
      label_dist_summary df tc = Except.error PyErr.keyError) ∧
    (∀ amb t evalNum evalDen valNum valDen e,
      random_splitting_checked amb t evalNum evalDen valNum valDen =
        Except.error e →
      e = PyErr.attributeError ∨ e = PyErr.keyError) := by
  refine ⟨?_, ?_, ?_, ?_, ?_⟩
  · intro amb t en ed vn vd h
    unfold random_splitting_checked
    rw [h]
  · intro amb t en ed vn vd peps hp ht
    unfold random_splitting_checked
    rw [hp, ht]
  · intro df tc col hcol h
    unfold label_dist_summary
    rw [hcol]
    rcases h with h0 | h1
    · simp [h0]
    · by_cases h0 : col.count 0 = 0
      · simp [h0]
      · simp [h0, h1]
  · intro df tc h
    unfold label_dist_summary
    rw [h]
  · intro amb t en ed vn vd e h
    unfold random_splitting_checked at h
    cases hp : t.peptide with
    | none => rw [hp] at h; exact Or.inl (by cases h; rfl)
    | some peps =>
      rw [hp] at h
      cases ht : t.target_value with
      | none => rw [ht] at h; exact Or.inl (by cases h; rfl)
      | some tvs => rw [ht] at h; cases h

/-- Malformed tables and partition used to instantiate the C8 theorem:
no `peptide` column; no `target_value` column; a one-class partition. -/
def c8NoPeptide : RawTable := { peptide := none, target_value := some [] }

def c8NoTarget : RawTable := { peptide := some ["a"], target_value := none }

def c8OneClass : PyDataFrame := { cols := [("target_value", [0, 0])] }

/-- Claim C8, witness: the generic failures at the three malformed inputs. -/
theorem splitting_errors_are_generic_witness :
    c8NoPeptide.peptide = none ∧
    random_splitting_checked 0 c8NoPeptide 1 5 1 2 =
      Except.error PyErr.attributeError ∧
    c8NoTarget.peptide = some ["a"] ∧
    c8NoTarget.target_value = none ∧
    random_splitting_checked 0 c8NoTarget 1 5 1 2 =
      Except.error PyErr.attributeError ∧
    c8OneClass.getCol "target_value" = some [0, 0] ∧
    (([0, 0] : List Nat).count 0 = 0 ∨ ([0, 0] : List Nat).count 1 = 0) ∧
    label_dist_summary c8OneClass "target_value" = Except.error PyErr.keyError ∧
    (PyErr.attributeError = PyErr.attributeError ∨
      PyErr.attributeError = PyErr.keyError) :=
  ⟨rfl,
    splitting_errors_are_generic.1 0 c8NoPeptide 1 5 1 2 rfl,
    rfl, rfl,
    splitting_errors_are_generic.2.1 0 c8NoTarget 1 5 1 2 ["a"] rfl rfl,
    rfl, Or.inr (by decide),
    splitting_errors_are_generic.2.2.1 c8OneClass "target_value" [0, 0] rfl
      (Or.inr (by decide)),
    splitting_errors_are_generic.2.2.2.2 0 c8NoPeptide 1 5 1 2
      PyErr.attributeError
      (splitting_errors_are_generic.1 0 c8NoPeptide 1 5 1 2 rfl)⟩

/-- Claim C9 (code bug): the claim says every step logs the fixed metric
panel identically across the three phases, and the default `metrics`
parameter of `__init__` (models.py lines 54-67) indeed lists exactly that
panel; but `__init__` never assigns `self.metrics`, so on every batch
each of the three steps computes and logs only the binary loss and then
fails with a generic `AttributeError` inside `evaluate_model` — no
metric is ever logged.  This theorem evaluates the embedded steps of a
freshly initialized model at an arbitrary batch. -/
theorem transformer_steps_raise_attribute_error (seq_len n_tokens
    embedding_size n_attn_heads enc_ff_hidden ff_hidden n_layers : Nat)
    (loss_fn : List Nat → List Nat → Nat) (metrics : List String)
    (fw : Batch → List Nat) (batch : Batch) :
    (TransformerModel.init seq_len n_tokens embedding_size n_attn_heads
        enc_ff_hidden ff_hidden n_layers loss_fn metrics).training_step fw batch =
      (loss_fn (fw batch) batch.y, ["train_loss"],
        Except.error PyErr.attributeError) ∧
    (TransformerModel.init seq_len n_tokens embedding_size n_attn_heads
        enc_ff_hidden ff_hidden n_layers loss_fn metrics).validation_step fw batch =
      (loss_fn (fw batch) batch.y, ["val_loss"],
        Except.error PyErr.attributeError) ∧
    (TransformerModel.init seq_len n_tokens embedding_size n_attn_heads
        enc_ff_hidden ff_hidden n_layers loss_fn metrics).test_step fw batch =
      (loss_fn (fw batch) batch.y, ["test_loss"],
        Except.error PyErr.attributeError) :=
  ⟨rfl, rfl, rfl⟩

/-- Claim C10: `validate_split` is purely diagnostic: for every
combination of train, validation, and optional test feature arrays —
including ones whose peptide sets overlap — it only prints the pairwise
overlap counts (one line without a test set, three lines with one) and
returns successfully; no input makes it fail or reject a leaky split. -/
theorem validate_split_purely_diagnostic (X_train X_val : List String)
    (X_test : Option (List String)) :
    ∃ msgs, validate_split X_train X_val X_test = Except.ok msgs ∧
      msgs.length = (match X_test with | none => 1 | some _ => 3) ∧
      msgs.head? = some ("Overlap between train and val " ++
        toString ((X_train.toFinset ∩ X_val.toFinset).card)) := by
  cases X_test <;> exact ⟨_, rfl, rfl, rfl⟩

/-- Counterexample input for claim C7: the peptides "p1" and "p2" share
Levenshtein group 0; "p1" occurs once positive and twice negative (two
negative rows keep the sklearn train part of the negative split
nonempty), "p2" once positive.  Every negative peptide is "p1" and group
0 is the only group, so the run below is insensitive to which
permutations and samples the library RNG draws. -/
def levC7Data : List HRow :=
  [{ peptide := "p1", target_value := 1 },
   { peptide := "p1", target_value := 0 },
   { peptide := "p1", target_value := 0 },
   { peptide := "p2", target_value := 1 }]

def levC7PosGroups : List LevRow :=
  [{ peptide := "p1", lev_group := 0 }, { peptide := "p2", lev_group := 0 }]

/-- Claim C7, counterexample: on `levC7Data` the positive row of "p2"
(group 0, drawn for training) is in the train output, while the positive
row of "p1" (the same group 0) is pulled into the val output by the
negative re-selection from the full merged table — two positive peptides
with the same precomputed `lev_group` value in different output splits,
refuting the claim's conclusion about the output splits. -/
theorem leventstein_same_group_in_two_splits_cx :
    ({ peptide := "p2", target_value := 1, lev_group := some 0 } : MergedRow) ∈
      (leventstein 0 levCxShuffle levCxSampler levC7PosGroups levC7Data).train ∧
    ({ peptide := "p1", target_value := 1, lev_group := some 0 } : MergedRow) ∈
      (leventstein 0 levCxShuffle levCxSampler levC7PosGroups levC7Data).val ∧
    ¬ (∀ a ∈ (leventstein 0 levCxShuffle levCxSampler levC7PosGroups levC7Data).train,
       ∀ b ∈ (leventstein 0 levCxShuffle levCxSampler levC7PosGroups levC7Data).val,
       a.target_value = 1 → b.target_value = 1 → a.peptide ≠ b.peptide →
       a.lev_group ≠ b.lev_group) := by
  decide
